import Mathlib

/-!
Verification of `celery/worker/job.py`: the execution boundary `jail` and the
`TaskWrapper` value object, shallowly embedded in Lean.

Modelling conventions:
* Python values appearing in `args`/`kwargs` are modelled by `PyValue`.
* Python dicts are insertion-ordered association lists; `dictSet` mirrors
  Python dict assignment (replace in place if the key exists, append
  otherwise), `dictUpdate` mirrors `dict.update`.
* An exception instance is modelled by its type name and message text
  (`PyExc`); `str(exc)` is the message text.
* Calls to external collaborators (timer, loader init hook, signals,
  backend, ack) are recorded in an event trace, in call order.
* A handler invocation `func(*args, **kwargs)` either returns a value,
  raises a worker-fatal signal (`SystemExit`/`KeyboardInterrupt`), raises
  `RetryTaskError` carrying `(message, original_exc)`, or raises any other
  exception; this outcome is the handler's `call` field.
* The backend's `mark_as_failure(task_id, exc)` returns a pickleable
  substitute for `exc`; the substitution policy is the `storeFailure`
  parameter.
-/

set_option autoImplicit false

namespace CeleryJob

/-- Python values that can appear in task args and kwargs. -/
inductive PyValue where
  | none
  | bool (b : Bool)
  | int (n : Int)
  | str (s : String)
  | logger (label : String)
deriving DecidableEq, Repr

/-- Python truthiness of a `PyValue`. A logger object is always truthy. -/
def PyValue.truthy : PyValue → Bool
  | .none => false
  | .bool b => b
  | .int n => n != 0
  | .str s => s != ""
  | .logger _ => true

/-- An exception instance: its type name and its message text. -/
structure PyExc where
  typeName : String
  msg : String
deriving DecidableEq, Repr

/-- `str(exc)`: the message text of the exception. -/
def PyExc.toStr (e : PyExc) : String := e.msg

/-- The worker-fatal signals: `SystemExit` and `KeyboardInterrupt`. -/
inductive FatalSignal where
  | systemExit
  | keyboardInterrupt
deriving DecidableEq, Repr

/-- `celery.datastructures.ExceptionInfo`: exception type, exception value
and traceback, as built by `ExceptionInfo((type_, value, tb))`. The
traceback is opaque runtime data; it is modelled by a fixed placeholder. -/
structure ExceptionInfo where
  excType : String
  exception : PyExc
  traceback : String
deriving DecidableEq, Repr

/-- The value `jail` returns (Python is untyped: the handler's return value
on success, an `ExceptionInfo` on retry or failure). -/
inductive JailRet (α : Type) where
  | value (v : α)
  | excInfo (e : ExceptionInfo)
deriving DecidableEq, Repr

/-- Outcome of invoking the handler `func(*args, **kwargs)`. -/
inductive CallResult (α : Type) where
  | ok (v : α)
  | fatal (s : FatalSignal)
  | retry (message : String) (origExc : PyExc)
  | exc (e : PyExc)
deriving DecidableEq, Repr

/-- A Python dict with string keys: an insertion-ordered association list
with no duplicate keys (operations below preserve that invariant). -/
abbrev Dict (α : Type) := List (String × α)

/-- `d[k]` lookup (`d.get(k)`): first entry with key `k`, if any. -/
def dictGet {α : Type} (d : Dict α) (k : String) : Option α :=
  match d with
  | [] => Option.none
  | (k2, v) :: rest => if k2 = k then some v else dictGet rest k

/-- Python dict assignment `d[k] = v`: replace in place if present,
append otherwise. -/
def dictSet {α : Type} (d : Dict α) (k : String) (v : α) : Dict α :=
  match d with
  | [] => [(k, v)]
  | (k2, v2) :: rest => if k2 = k then (k, v) :: rest else (k2, v2) :: dictSet rest k v

/-- `d.update(e)`: assign every entry of `e` into `d`, in order. -/
def dictUpdate {α : Type} (d e : Dict α) : Dict α :=
  e.foldl (fun acc kv => dictSet acc kv.1 kv.2) d

/-- Observable calls `jail`/`execute` make to external collaborators,
in the order they are made. -/
inductive Event (α : Type) where
  | timerStart (task_id task_name : String)
  | onTaskInit (task_id : String)
  | taskPrerun (task_id : String)
  | processCleanup
  | handlerInvoked
  | markAsDone (task_id : String) (v : α)
  | markAsRetry (task_id : String) (e : PyExc)
  | markAsFailure (task_id : String) (e : PyExc)
  | timerStop
  | taskPostrun (task_id : String) (retval : JailRet α)
  | ack
deriving DecidableEq, Repr

/-- A task handler: its `ignore_result` attribute (`getattr(func,
"ignore_result", False)`) and the outcome of calling it on given
args/kwargs. -/
structure Func (α : Type) where
  ignore_result : Bool := false
  call : List α → Dict α → CallResult α

/-- `jail(task_id, task_name, func, args, kwargs)` from
`celery/worker/job.py`. Returns the propagated fatal signal or the
returned value, paired with the trace of external calls. The `finally`
clause (`timer_stat.stop()`) runs on every branch; `task_postrun` is
reached only when no exception propagates. -/
def jail {α : Type} (storeFailure : String → PyExc → PyExc)
    (task_id task_name : String) (func : Func α)
    (args : List α) (kwargs : Dict α) :
    Except FatalSignal (JailRet α) × List (Event α) :=
  let ignore_result := func.ignore_result
  match func.call args kwargs with
  | .fatal s =>
      (Except.error s,
       [Event.timerStart task_id task_name, Event.onTaskInit task_id,
        Event.taskPrerun task_id, Event.processCleanup, Event.handlerInvoked,
        Event.timerStop])
  | .retry message origExc =>
      let expanded_msg := message ++ ": " ++ origExc.toStr
      let retval := JailRet.excInfo
        { excType := "RetryTaskError",
          exception := { typeName := "RetryTaskError", msg := expanded_msg },
          traceback := "tb" }
      (Except.ok retval,
       [Event.timerStart task_id task_name, Event.onTaskInit task_id,
        Event.taskPrerun task_id, Event.processCleanup, Event.handlerInvoked,
        Event.markAsRetry task_id origExc, Event.timerStop,
        Event.taskPostrun task_id retval])
  | .exc e =>
      let stored_exc := storeFailure task_id e
      let retval := JailRet.excInfo
        { excType := e.typeName, exception := stored_exc, traceback := "tb" }
      (Except.ok retval,
       [Event.timerStart task_id task_name, Event.onTaskInit task_id,
        Event.taskPrerun task_id, Event.processCleanup, Event.handlerInvoked,
        Event.markAsFailure task_id e, Event.timerStop,
        Event.taskPostrun task_id retval])
  | .ok result =>
      let retval := JailRet.value result
      (Except.ok retval,
       [Event.timerStart task_id task_name, Event.onTaskInit task_id,
        Event.taskPrerun task_id, Event.processCleanup, Event.handlerInvoked]
        ++ (if ignore_result then [] else [Event.markAsDone task_id result])
        ++ [Event.timerStop, Event.taskPostrun task_id retval])

/-- The module-level `EMAIL_SIGNATURE_SEP` constant. -/
def EMAIL_SIGNATURE_SEP : String := "-- "

/-- The module-level `TASK_FAIL_EMAIL_BODY` constant, after the one `%`
interpolation performed at module load (`%%` collapses to `%`,
`%(EMAIL_SIGNATURE_SEP)s` is filled in). -/
def TASK_FAIL_EMAIL_BODY : String :=
  "\nTask %(name)s with id %(id)s raised exception: %(exc)s\n\n\n" ++
  "Task was called with args:%(args)s kwargs:%(kwargs)s.\n" ++
  "The contents of the full traceback was:\n\n%(traceback)s\n\n" ++
  EMAIL_SIGNATURE_SEP ++
  "\nJust thought I'd let you know!\nceleryd at %(hostname)s.\n"

/-- Class-level default of `TaskWrapper.success_msg`. -/
def success_msg_default : String :=
  "Task %(name)s[%(id)s] processed: %(return_value)s"

/-- Class-level default of `TaskWrapper.fail_msg`. -/
def fail_msg_default : String :=
  "\n        Task %(name)s[%(id)s] raised exception: %(exc)s\n%(traceback)s\n    "

/-- Class-level default of `TaskWrapper.fail_email_subject`. -/
def fail_email_subject_default : String :=
  "\n        [celery@%(hostname)s] Error: Task %(name)s (%(id)s): %(exc)s\n    "

/-- Class-level default of `TaskWrapper.fail_email_body`. -/
def fail_email_body_default : String := TASK_FAIL_EMAIL_BODY

/-- `multiprocessing.get_logger()`: the multiprocessing module logger,
a fixed truthy logger object. -/
def multiprocessing_get_logger : PyValue := PyValue.logger "multiprocessing"

/-- The `TaskWrapper` object state after `__init__`. -/
structure TaskWrapper where
  task_name : String
  task_id : String
  task_func : Func PyValue
  retries : Nat
  args : List PyValue
  kwargs : Dict PyValue
  logger : PyValue
  on_ack : Option Unit
  success_msg : String
  fail_msg : String
  fail_email_subject : String
  fail_email_body : String

/-- `TaskWrapper.__init__`. `opts` carries the four overridable message
templates; any other keyword landing in `**opts` (such as the `logger`
keyword passed by `from_message`) is ignored, because the `setattr` loop
reads only these four keys. `self.logger` comes from `kwargs.get("logger")`
and falls back to the multiprocessing logger when that value is falsy. -/
def TaskWrapper.init (task_name task_id : String) (task_func : Func PyValue)
    (args : List PyValue) (kwargs : Dict PyValue)
    (on_ack : Option Unit) (retries : Nat) (opts : Dict String) :
    TaskWrapper :=
  let logger0 := (dictGet kwargs "logger").getD PyValue.none
  { task_name := task_name
    task_id := task_id
    task_func := task_func
    retries := retries
    args := args
    kwargs := kwargs
    logger := if logger0.truthy then logger0 else multiprocessing_get_logger
    on_ack := on_ack
    success_msg := (dictGet opts "success_msg").getD success_msg_default
    fail_msg := (dictGet opts "fail_msg").getD fail_msg_default
    fail_email_subject :=
      (dictGet opts "fail_email_subject").getD fail_email_subject_default
    fail_email_body :=
      (dictGet opts "fail_email_body").getD fail_email_body_default }

/-- The parsed body of an inbound task message (`message_data`). -/
structure MessageData where
  task : String
  id : String
  args : List PyValue
  kwargs : Dict PyValue
  retries : Option Nat
deriving Repr

/-- The `NotRegistered` error raised for an unknown task name. -/
structure NotRegistered where
  task_name : String
deriving DecidableEq, Repr

/-- `key.encode("utf-8")`: Lean strings are already canonical Unicode,
so the normalisation is the identity. -/
def encodeUtf8 (s : String) : String := s

set_option linter.unusedVariables false in
/-- `TaskWrapper.from_message(message, message_data, logger)`. The task
registry `tasks` and the message's ack capability are passed explicitly.
Returns the constructed wrapper or the `NotRegistered` error, paired with
the trace of backend calls made (the function makes none). The `logger`
argument is forwarded into `**opts`, where `__init__` discards it. -/
def TaskWrapper.from_message (registry : Dict (Func PyValue))
    (message_ack : Option Unit) (message_data : MessageData)
    (logger : PyValue) :
    Except NotRegistered TaskWrapper × List (Event PyValue) :=
  let task_name := message_data.task
  let task_id := message_data.id
  let args := message_data.args
  let retries := message_data.retries.getD 0
  let kwargs := message_data.kwargs.map (fun kv => (encodeUtf8 kv.1, kv.2))
  match dictGet registry task_name with
  | Option.none => (Except.error { task_name := task_name }, [])
  | some task_func =>
      (Except.ok
        (TaskWrapper.init task_name task_id task_func args kwargs
          message_ack retries []),
       [])

/-- `TaskWrapper.extend_with_default_kwargs(loglevel, logfile)`.
`dict(self.kwargs)` takes a copy (the identity on immutable Lean values);
the copy is updated with the injected execution context and returned.
The wrapper state after the call is returned as the second component. -/
def TaskWrapper.extend_with_default_kwargs (self : TaskWrapper)
    (loglevel logfile : PyValue) : Dict PyValue × TaskWrapper :=
  let kwargs := self.kwargs
  let task_func_kwargs : Dict PyValue :=
    [("logfile", logfile), ("loglevel", loglevel),
     ("task_id", PyValue.str self.task_id),
     ("task_name", PyValue.str self.task_name),
     ("task_retries", PyValue.int (Int.ofNat self.retries))]
  (dictUpdate kwargs task_func_kwargs, self)

/-- `TaskWrapper.execute(loglevel, logfile)`: extend the kwargs, invoke
`on_ack` if it is set, then run `jail`. Returns `jail`'s result paired
with the full trace (the ack call, then `jail`'s calls). -/
def TaskWrapper.execute (self : TaskWrapper)
    (storeFailure : String → PyExc → PyExc) (loglevel logfile : PyValue) :
    Except FatalSignal (JailRet PyValue) × List (Event PyValue) :=
  let task_func_kwargs := (self.extend_with_default_kwargs loglevel logfile).1
  let ackTrace : List (Event PyValue) :=
    match self.on_ack with
    | some _ => [Event.ack]
    | Option.none => []
  let r := jail storeFailure self.task_id self.task_name self.task_func
    self.args task_func_kwargs
  (r.1, ackTrace ++ r.2)

/-! ### Dict lemmas -/

theorem dictGet_dictSet_same {α : Type} (d : Dict α) (k : String) (v : α) :
    dictGet (dictSet d k v) k = some v := by
  induction d with
  | nil => simp [dictSet, dictGet]
  | cons kv rest ih =>
    obtain ⟨k2, v2⟩ := kv
    by_cases h : k2 = k
    · simp [dictSet, dictGet, h]
    · simp [dictSet, dictGet, h, ih]

theorem dictGet_dictSet_ne {α : Type} (d : Dict α) (k k2 : String) (v : α)
    (h : k2 ≠ k) : dictGet (dictSet d k v) k2 = dictGet d k2 := by
  induction d with
  | nil =>
    have h2 : ¬ (k = k2) := fun hh => h hh.symm
    simp [dictSet, dictGet, h2]
  | cons kv rest ih =>
    obtain ⟨k3, v3⟩ := kv
    by_cases h3 : k3 = k
    · subst h3
      have h2 : ¬ (k3 = k2) := fun hh => h hh.symm
      simp [dictSet, dictGet, h2]
    · by_cases h4 : k3 = k2
      · subst h4
        simp [dictSet, dictGet, h3]
      · simp [dictSet, dictGet, h3, h4, ih]

/-! ### Trace shape of `jail` -/

/-- Every `jail` trace begins with the five pre-execution events (so the
prerun hook precedes the handler invocation), never contains an ack
event, and always contains the handler invocation. -/
theorem jail_trace_shape {α : Type} (storeFailure : String → PyExc → PyExc)
    (task_id task_name : String) (func : Func α)
    (args : List α) (kwargs : Dict α) :
    (jail storeFailure task_id task_name func args kwargs).2.take 5 =
      [Event.timerStart task_id task_name, Event.onTaskInit task_id,
       Event.taskPrerun task_id, Event.processCleanup, Event.handlerInvoked]
    ∧ Event.ack ∉ (jail storeFailure task_id task_name func args kwargs).2
    ∧ Event.handlerInvoked ∈
        (jail storeFailure task_id task_name func args kwargs).2 := by
  cases hcall : func.call args kwargs <;>
    cases hig : func.ignore_result <;>
      simp [jail, hcall, hig]

/-! ### Concrete instances used in the scenario witnesses -/

/-- A concrete backend substitution policy: `mark_as_failure` stores a
wrapped (guaranteed-pickleable) copy of the exception. -/
def wrapStore : String → PyExc → PyExc :=
  fun _ e => { typeName := e.typeName, msg := "pickled: " ++ e.msg }

/-- The scenario handler `add(a, b) = a + b`. -/
def addFunc : Func PyValue :=
  { ignore_result := false,
    call := fun args _ =>
      match args with
      | [PyValue.int a, PyValue.int b] => CallResult.ok (PyValue.int (a + b))
      | _ => CallResult.exc { typeName := "TypeError", msg := "bad arguments" } }

/-- A handler flagged `ignore_result` that returns 7. -/
def ignoreFunc : Func PyValue :=
  { ignore_result := true, call := fun _ _ => CallResult.ok (PyValue.int 7) }

/-- The scenario handler raising
`RetryTaskError("transient network error", ConnectionError("timeout"))`. -/
def retryFunc : Func PyValue :=
  { call := fun _ _ => CallResult.retry "transient network error"
      { typeName := "ConnectionError", msg := "timeout" } }

/-- The scenario handler raising `ValueError("bad input")`. -/
def failFunc : Func PyValue :=
  { call := fun _ _ => CallResult.exc { typeName := "ValueError", msg := "bad input" } }

/-- A handler raising `SystemExit`. -/
def fatalFunc : Func PyValue :=
  { call := fun _ _ => CallResult.fatal FatalSignal.systemExit }

/-- A concrete wrapper with an ack capability and one message kwarg. -/
def sampleWrapper : TaskWrapper :=
  TaskWrapper.init "add" "t1" addFunc [PyValue.int 2, PyValue.int 3]
    [("x", PyValue.int 1)] (some ()) 0 []

/-- A concrete wrapper without an ack capability. -/
def sampleWrapperNoAck : TaskWrapper :=
  TaskWrapper.init "add" "t1" addFunc [] [] Option.none 0 []

/-- A concrete wrapper whose message kwargs already bind "loglevel". -/
def overrideWrapper : TaskWrapper :=
  TaskWrapper.init "add" "t1" addFunc [] [("loglevel", PyValue.int 99)]
    (some ()) 3 []

/-- A concrete inbound message naming the task "add". -/
def sampleMessage : MessageData :=
  { task := "add", id := "t1", args := [PyValue.int 2, PyValue.int 3],
    kwargs := [], retries := Option.none }

/-- Event predicate: is this a `task_postrun` notification? -/
def Event.isPostrun {α : Type} : Event α → Bool
  | .taskPostrun _ _ => true
  | _ => false

/-! ### Claims -/

/-- C1: when the handler invocation inside `jail` returns normally with
value `v`, `jail` returns `v`; if the handler is not flagged
`ignore_result`, `mark_as_done(task_id, v)` is called on the backend, and
if it is flagged `ignore_result`, no `mark_as_done` call occurs but `v`
is still returned. -/
theorem C1_success_returns_value_and_marks_done {α : Type}
    (storeFailure : String → PyExc → PyExc) (task_id task_name : String)
    (func : Func α) (args : List α) (kwargs : Dict α) (v : α)
    (hcall : func.call args kwargs = CallResult.ok v) :
    (jail storeFailure task_id task_name func args kwargs).1 =
      Except.ok (JailRet.value v)
    ∧ (func.ignore_result = false →
        Event.markAsDone task_id v ∈
          (jail storeFailure task_id task_name func args kwargs).2)
    ∧ (func.ignore_result = true →
        ∀ (i : String) (w : α), Event.markAsDone i w ∉
          (jail storeFailure task_id task_name func args kwargs).2) := by
  cases hig : func.ignore_result <;> simp [jail, hcall, hig]

/-- C1 witness: `add(2, 3)` returns 5 with `mark_as_done("t1", 5)`
recorded, and an `ignore_result` handler returns its value with no
`mark_as_done` call. -/
theorem C1_witness :
    ((jail wrapStore "t1" "add" addFunc [PyValue.int 2, PyValue.int 3] []).1 =
        Except.ok (JailRet.value (PyValue.int 5))
      ∧ Event.markAsDone "t1" (PyValue.int 5) ∈
          (jail wrapStore "t1" "add" addFunc [PyValue.int 2, PyValue.int 3] []).2)
    ∧ ((jail wrapStore "t2" "ig" ignoreFunc [] []).1 =
        Except.ok (JailRet.value (PyValue.int 7))
      ∧ Event.markAsDone "t2" (PyValue.int 7) ∉
          (jail wrapStore "t2" "ig" ignoreFunc [] []).2) := by
  have h1 := C1_success_returns_value_and_marks_done wrapStore "t1" "add" addFunc
    [PyValue.int 2, PyValue.int 3] [] (PyValue.int 5) (by decide)
  have h2 := C1_success_returns_value_and_marks_done wrapStore "t2" "ig" ignoreFunc
    [] [] (PyValue.int 7) (by decide)
  exact ⟨⟨h1.1, h1.2.1 rfl⟩, ⟨h2.1, h2.2.2 rfl "t2" (PyValue.int 7)⟩⟩

/-- C2: when the handler raises a non-fatal, non-retry exception `e`,
`jail` calls `mark_as_failure(task_id, e)` and the outcome it returns
wraps the value returned by `mark_as_failure` (the substitution
`storeFailure task_id e`), not the originally raised exception whenever
the substitute differs from it. -/
theorem C2_failure_wraps_stored_exception {α : Type}
    (storeFailure : String → PyExc → PyExc) (task_id task_name : String)
    (func : Func α) (args : List α) (kwargs : Dict α) (e : PyExc)
    (hcall : func.call args kwargs = CallResult.exc e) :
    (jail storeFailure task_id task_name func args kwargs).1 =
      Except.ok (JailRet.excInfo
        { excType := e.typeName, exception := storeFailure task_id e,
          traceback := "tb" })
    ∧ Event.markAsFailure task_id e ∈
        (jail storeFailure task_id task_name func args kwargs).2
    ∧ (storeFailure task_id e ≠ e →
        (jail storeFailure task_id task_name func args kwargs).1 ≠
          Except.ok (JailRet.excInfo
            { excType := e.typeName, exception := e, traceback := "tb" })) := by
  have h1 : (jail storeFailure task_id task_name func args kwargs).1 =
      Except.ok (JailRet.excInfo
        { excType := e.typeName, exception := storeFailure task_id e,
          traceback := "tb" }) := by
    simp [jail, hcall]
  refine ⟨h1, by simp [jail, hcall], ?_⟩
  intro hne heq
  rw [h1] at heq
  injection heq with h
  injection h with h
  exact hne (congrArg ExceptionInfo.exception h)

/-- C2 witness: `ValueError("bad input")` is recorded via
`mark_as_failure` and the returned outcome wraps the backend's pickled
substitute, which differs from the raised exception. -/
theorem C2_witness :
    (jail wrapStore "t1" "f" failFunc [] []).1 = Except.ok (JailRet.excInfo
      { excType := "ValueError",
        exception := { typeName := "ValueError", msg := "pickled: bad input" },
        traceback := "tb" })
    ∧ Event.markAsFailure "t1" { typeName := "ValueError", msg := "bad input" } ∈
        (jail wrapStore "t1" "f" failFunc [] []).2
    ∧ (jail wrapStore "t1" "f" failFunc [] []).1 ≠ Except.ok (JailRet.excInfo
      { excType := "ValueError",
        exception := { typeName := "ValueError", msg := "bad input" },
        traceback := "tb" }) := by
  have h := C2_failure_wraps_stored_exception wrapStore "t1" "f" failFunc [] []
    { typeName := "ValueError", msg := "bad input" } (by decide)
  refine ⟨?_, h.2.1, h.2.2 (by decide)⟩
  rw [h.1]
  rfl

/-- C3: when the handler raises a retry signal carrying
`(message, origExc)`, `jail` calls `mark_as_retry(task_id, origExc)` and
the returned outcome's exception message is the stringification
`message ++ ": " ++ str(origExc)`, not the live original exception. -/
theorem C3_retry_marks_retry_and_stringifies {α : Type}
    (storeFailure : String → PyExc → PyExc) (task_id task_name : String)
    (func : Func α) (args : List α) (kwargs : Dict α)
    (message : String) (origExc : PyExc)
    (hcall : func.call args kwargs = CallResult.retry message origExc) :
    Event.markAsRetry task_id origExc ∈
      (jail storeFailure task_id task_name func args kwargs).2
    ∧ (jail storeFailure task_id task_name func args kwargs).1 =
      Except.ok (JailRet.excInfo
        { excType := "RetryTaskError",
          exception := { typeName := "RetryTaskError",
                         msg := message ++ ": " ++ origExc.toStr },
          traceback := "tb" }) := by
  constructor <;> simp [jail, hcall]

/-- C3 witness: `RetryTaskError("transient network error",
ConnectionError("timeout"))` yields `mark_as_retry("t1", ConnectionError)`
and the returned message is exactly "transient network error: timeout". -/
theorem C3_witness :
    Event.markAsRetry "t1" { typeName := "ConnectionError", msg := "timeout" } ∈
      (jail wrapStore "t1" "r" retryFunc [] []).2
    ∧ (jail wrapStore "t1" "r" retryFunc [] []).1 = Except.ok (JailRet.excInfo
        { excType := "RetryTaskError",
          exception := { typeName := "RetryTaskError",
                         msg := "transient network error: timeout" },
          traceback := "tb" }) := by
  have h := C3_retry_marks_retry_and_stringifies wrapStore "t1" "r" retryFunc [] []
    "transient network error" { typeName := "ConnectionError", msg := "timeout" }
    (by decide)
  exact ⟨h.1, h.2⟩

/-- C4: when the handler raises a worker-fatal signal (`SystemExit` or
`KeyboardInterrupt`), the same signal propagates out of `jail` unchanged
and no `mark_as_done`, `mark_as_retry` or `mark_as_failure` call is
made. -/
theorem C4_fatal_propagates_without_backend_calls {α : Type}
    (storeFailure : String → PyExc → PyExc) (task_id task_name : String)
    (func : Func α) (args : List α) (kwargs : Dict α)
    (s : FatalSignal) (hcall : func.call args kwargs = CallResult.fatal s) :
    (jail storeFailure task_id task_name func args kwargs).1 = Except.error s
    ∧ (∀ (i : String) (v : α), Event.markAsDone i v ∉
        (jail storeFailure task_id task_name func args kwargs).2)
    ∧ (∀ (i : String) (e : PyExc), Event.markAsRetry i e ∉
        (jail storeFailure task_id task_name func args kwargs).2)
    ∧ (∀ (i : String) (e : PyExc), Event.markAsFailure i e ∉
        (jail storeFailure task_id task_name func args kwargs).2) := by
  simp [jail, hcall]

/-- C4 witness: a handler raising `SystemExit` makes `jail` propagate
`SystemExit` and record no outcome. -/
theorem C4_witness :
    (jail wrapStore "t1" "f" fatalFunc [] []).1 =
      Except.error FatalSignal.systemExit
    ∧ Event.markAsDone "t1" (PyValue.int 0) ∉
        (jail wrapStore "t1" "f" fatalFunc [] []).2
    ∧ Event.markAsRetry "t1" { typeName := "E", msg := "m" } ∉
        (jail wrapStore "t1" "f" fatalFunc [] []).2
    ∧ Event.markAsFailure "t1" { typeName := "E", msg := "m" } ∉
        (jail wrapStore "t1" "f" fatalFunc [] []).2 := by
  have h := C4_fatal_propagates_without_backend_calls wrapStore "t1" "f" fatalFunc
    [] [] FatalSignal.systemExit (by decide)
  exact ⟨h.1, h.2.1 "t1" (PyValue.int 0),
    h.2.2.1 "t1" { typeName := "E", msg := "m" },
    h.2.2.2 "t1" { typeName := "E", msg := "m" }⟩

/-- C5 counterexample: when the handler raises `SystemExit`, `jail`
re-raises before reaching the `task_postrun` send, so the trace of that
attempt contains no `task_postrun` notification at all — the after-run
hook does not fire on every branch. -/
theorem C5_counterexample :
    ((jail wrapStore "t1" "f" fatalFunc [] []).2.any Event.isPostrun) = false := by
  decide

/-- C5 (amended): the before-run hook fires before the handler is
invoked on every attempt (the trace begins with the five pre-execution
events), and the after-run hook fires with the final outcome, as the
last event, on every branch on which `jail` returns (success, retry and
failure); on the worker-fatal branch the signal propagates and the
after-run hook does not fire. -/
theorem C5_hooks_fire_on_every_returning_branch {α : Type}
    (storeFailure : String → PyExc → PyExc) (task_id task_name : String)
    (func : Func α) (args : List α) (kwargs : Dict α) :
    (jail storeFailure task_id task_name func args kwargs).2.take 5 =
      [Event.timerStart task_id task_name, Event.onTaskInit task_id,
       Event.taskPrerun task_id, Event.processCleanup, Event.handlerInvoked]
    ∧ (∀ v : JailRet α,
        (jail storeFailure task_id task_name func args kwargs).1 = Except.ok v →
        (jail storeFailure task_id task_name func args kwargs).2.getLast? =
          some (Event.taskPostrun task_id v))
    ∧ (∀ s : FatalSignal,
        (jail storeFailure task_id task_name func args kwargs).1 = Except.error s →
        ∀ (i : String) (v : JailRet α), Event.taskPostrun i v ∉
          (jail storeFailure task_id task_name func args kwargs).2) := by
  refine ⟨(jail_trace_shape storeFailure task_id task_name func args kwargs).1,
    ?_, ?_⟩ <;>
    cases hcall : func.call args kwargs <;>
      cases hig : func.ignore_result <;>
        simp [jail, hcall, hig, List.getLast?]

/-- C5 witness: on a successful attempt the trace starts with the five
pre-execution events and ends with `task_postrun` carrying the returned
value; on the fatal attempt no `task_postrun` appears. -/
theorem C5_witness :
    (jail wrapStore "t1" "add" addFunc [PyValue.int 2, PyValue.int 3] []).2.take 5 =
      [Event.timerStart "t1" "add", Event.onTaskInit "t1", Event.taskPrerun "t1",
       Event.processCleanup, Event.handlerInvoked]
    ∧ (jail wrapStore "t1" "add" addFunc [PyValue.int 2, PyValue.int 3] []).2.getLast? =
      some (Event.taskPostrun "t1" (JailRet.value (PyValue.int 5)))
    ∧ Event.taskPostrun "t1" (JailRet.value (PyValue.int 0)) ∉
        (jail wrapStore "t1" "f" fatalFunc [] []).2 := by
  have h1 := C5_hooks_fire_on_every_returning_branch wrapStore "t1" "add" addFunc
    [PyValue.int 2, PyValue.int 3] []
  have h2 := C5_hooks_fire_on_every_returning_branch wrapStore "t1" "f" fatalFunc [] []
  exact ⟨h1.1, h1.2.1 (JailRet.value (PyValue.int 5)) (by rfl),
    h2.2.2 FatalSignal.systemExit (by rfl) "t1" (JailRet.value (PyValue.int 0))⟩

/-- C6: `extend_with_default_kwargs` returns a copy of the wrapper's
kwargs augmented with `logfile`, `loglevel`, `task_id`, `task_name` and
`task_retries`, leaves the wrapper's stored kwargs unchanged, and two
calls with different loglevels yield two distinct mappings. -/
theorem C6_extend_is_pure_augmented_copy (w : TaskWrapper) (l1 l2 f : PyValue) :
    (w.extend_with_default_kwargs l1 f).2 = w
    ∧ ((w.extend_with_default_kwargs l1 f).2.extend_with_default_kwargs l2 f).2 = w
    ∧ dictGet (w.extend_with_default_kwargs l1 f).1 "logfile" = some f
    ∧ dictGet (w.extend_with_default_kwargs l1 f).1 "loglevel" = some l1
    ∧ dictGet (w.extend_with_default_kwargs l1 f).1 "task_id" =
        some (PyValue.str w.task_id)
    ∧ dictGet (w.extend_with_default_kwargs l1 f).1 "task_name" =
        some (PyValue.str w.task_name)
    ∧ dictGet (w.extend_with_default_kwargs l1 f).1 "task_retries" =
        some (PyValue.int (Int.ofNat w.retries))
    ∧ dictGet ((w.extend_with_default_kwargs l1 f).2.extend_with_default_kwargs l2 f).1
        "loglevel" = some l2
    ∧ (∀ k : String, k ≠ "logfile" → k ≠ "loglevel" → k ≠ "task_id" →
        k ≠ "task_name" → k ≠ "task_retries" →
        dictGet (w.extend_with_default_kwargs l1 f).1 k = dictGet w.kwargs k)
    ∧ (l1 ≠ l2 →
        (w.extend_with_default_kwargs l1 f).1 ≠
          ((w.extend_with_default_kwargs l1 f).2.extend_with_default_kwargs l2 f).1) := by
  have hl1 : dictGet (w.extend_with_default_kwargs l1 f).1 "loglevel" = some l1 := by
    simp [TaskWrapper.extend_with_default_kwargs, dictUpdate,
      dictGet_dictSet_same, dictGet_dictSet_ne]
  have hl2 : dictGet ((w.extend_with_default_kwargs l1 f).2.extend_with_default_kwargs
      l2 f).1 "loglevel" = some l2 := by
    simp [TaskWrapper.extend_with_default_kwargs, dictUpdate,
      dictGet_dictSet_same, dictGet_dictSet_ne]
  refine ⟨rfl, rfl, ?_, hl1, ?_, ?_, ?_, hl2, ?_, ?_⟩
  · simp [TaskWrapper.extend_with_default_kwargs, dictUpdate,
      dictGet_dictSet_same, dictGet_dictSet_ne]
  · simp [TaskWrapper.extend_with_default_kwargs, dictUpdate,
      dictGet_dictSet_same, dictGet_dictSet_ne]
  · simp [TaskWrapper.extend_with_default_kwargs, dictUpdate,
      dictGet_dictSet_same, dictGet_dictSet_ne]
  · simp [TaskWrapper.extend_with_default_kwargs, dictUpdate,
      dictGet_dictSet_same, dictGet_dictSet_ne]
  · intro k h1 h2 h3 h4 h5
    simp [TaskWrapper.extend_with_default_kwargs, dictUpdate,
      dictGet_dictSet_ne, h1, h2, h3, h4, h5]
  · intro hne heq
    apply hne
    have := hl2
    rw [← heq, hl1] at this
    injection this

/-- C6 witness: on a concrete wrapper the two calls leave the wrapper
unchanged, inject the loglevels, preserve the message kwarg "x", and
produce distinct mappings. -/
theorem C6_witness :
    (sampleWrapper.extend_with_default_kwargs (PyValue.int 10) PyValue.none).2 =
      sampleWrapper
    ∧ dictGet (sampleWrapper.extend_with_default_kwargs (PyValue.int 10)
        PyValue.none).1 "loglevel" = some (PyValue.int 10)
    ∧ dictGet (sampleWrapper.extend_with_default_kwargs (PyValue.int 10)
        PyValue.none).1 "x" = dictGet sampleWrapper.kwargs "x"
    ∧ (sampleWrapper.extend_with_default_kwargs (PyValue.int 10) PyValue.none).1 ≠
        ((sampleWrapper.extend_with_default_kwargs (PyValue.int 10)
          PyValue.none).2.extend_with_default_kwargs (PyValue.int 20) PyValue.none).1 := by
  obtain ⟨h1, h2, h3, h4, h5, h6, h7, h8, h9, h10⟩ :=
    C6_extend_is_pure_augmented_copy sampleWrapper (PyValue.int 10)
      (PyValue.int 20) PyValue.none
  exact ⟨h1, h4,
    h9 "x" (by decide) (by decide) (by decide) (by decide) (by decide),
    h10 (by decide)⟩

/-- C7: a message naming a task absent from the registry makes
`from_message` fail with `NotRegistered` carrying that task name,
constructing no wrapper and making no backend call. -/
theorem C7_unregistered_task_rejected (registry : Dict (Func PyValue))
    (message_ack : Option Unit) (message_data : MessageData) (logger : PyValue)
    (habsent : dictGet registry message_data.task = Option.none) :
    TaskWrapper.from_message registry message_ack message_data logger =
      (Except.error { task_name := message_data.task }, []) := by
  simp [TaskWrapper.from_message, habsent]

/-- C7 witness: constructing from a message naming "add" against the
empty registry fails with `NotRegistered "add"` and records nothing. -/
theorem C7_witness :
    TaskWrapper.from_message [] (some ()) sampleMessage PyValue.none =
      (Except.error { task_name := "add" }, []) := by
  exact C7_unregistered_task_rejected [] (some ()) sampleMessage PyValue.none
    (by rfl)

/-- C8: when `on_ack` is set, `execute` invokes it exactly once, as the
very first external call and strictly before the handler invocation;
when `on_ack` is not set, no acknowledgment occurs and the handler still
runs. -/
theorem C8_ack_at_dispatch (w : TaskWrapper)
    (storeFailure : String → PyExc → PyExc) (loglevel logfile : PyValue) :
    (w.on_ack.isSome = true →
      ∃ rest, (w.execute storeFailure loglevel logfile).2 = Event.ack :: rest
        ∧ Event.ack ∉ rest ∧ Event.handlerInvoked ∈ rest)
    ∧ (w.on_ack = Option.none →
      Event.ack ∉ (w.execute storeFailure loglevel logfile).2
        ∧ Event.handlerInvoked ∈ (w.execute storeFailure loglevel logfile).2) := by
  obtain ⟨h5, hack, hinv⟩ := jail_trace_shape storeFailure w.task_id w.task_name
    w.task_func w.args (w.extend_with_default_kwargs loglevel logfile).1
  cases hoa : w.on_ack with
  | none =>
    refine ⟨fun hs => absurd hs (by simp [hoa]), fun _ => ⟨?_, ?_⟩⟩
    · simpa [TaskWrapper.execute, hoa] using hack
    · simpa [TaskWrapper.execute, hoa] using hinv
  | some u =>
    refine ⟨fun _ => ⟨(jail storeFailure w.task_id w.task_name w.task_func w.args
      (w.extend_with_default_kwargs loglevel logfile).1).2, ?_, hack, hinv⟩,
      fun hnone => absurd hnone (by simp [hoa])⟩
    simp [TaskWrapper.execute, hoa]

/-- C8 witness: on a wrapper with an ack capability, the trace begins
with the single ack event and the handler runs after it; on a wrapper
without one, no ack event occurs and the handler still runs. -/
theorem C8_witness :
    (sampleWrapper.execute wrapStore PyValue.none PyValue.none).2.head? =
      some Event.ack
    ∧ Event.handlerInvoked ∈
        (sampleWrapper.execute wrapStore PyValue.none PyValue.none).2
    ∧ Event.ack ∉ (sampleWrapperNoAck.execute wrapStore PyValue.none PyValue.none).2
    ∧ Event.handlerInvoked ∈
        (sampleWrapperNoAck.execute wrapStore PyValue.none PyValue.none).2 := by
  have h1 := C8_ack_at_dispatch sampleWrapper wrapStore PyValue.none PyValue.none
  have h2 := C8_ack_at_dispatch sampleWrapperNoAck wrapStore PyValue.none PyValue.none
  obtain ⟨rest, hr, hnot, hmem⟩ := h1.1 (by rfl)
  obtain ⟨hno, hinv⟩ := h2.2 (by rfl)
  refine ⟨by rw [hr]; rfl, by rw [hr]; exact List.mem_cons_of_mem _ hmem, hno, hinv⟩

/-- C9: when the wrapper's kwargs already bind one of the injected keys
(`logfile`, `loglevel`, `task_id`, `task_name`, `task_retries`),
`extend_with_default_kwargs` maps that key to the injected
execution-context value, silently overriding the message-supplied
value. -/
theorem C9_injected_keys_override_message_kwargs (w : TaskWrapper)
    (loglevel logfile : PyValue) (k : String) (v : PyValue)
    (hk : k = "logfile" ∨ k = "loglevel" ∨ k = "task_id" ∨ k = "task_name" ∨
      k = "task_retries")
    (hpresent : dictGet w.kwargs k = some v) :
    dictGet (w.extend_with_default_kwargs loglevel logfile).1 k =
      dictGet [("logfile", logfile), ("loglevel", loglevel),
               ("task_id", PyValue.str w.task_id),
               ("task_name", PyValue.str w.task_name),
               ("task_retries", PyValue.int (Int.ofNat w.retries))] k := by
  rcases hk with h | h | h | h | h <;> subst h <;>
    simp [TaskWrapper.extend_with_default_kwargs, dictUpdate, dictGet,
      dictGet_dictSet_same, dictGet_dictSet_ne]

/-- C9 witness: a wrapper whose message kwargs bind "loglevel" to 99 has
that binding overridden by the injected loglevel. -/
theorem C9_witness :
    dictGet (overrideWrapper.extend_with_default_kwargs (PyValue.int 10)
      PyValue.none).1 "loglevel" = some (PyValue.int 10) := by
  have h := C9_injected_keys_override_message_kwargs overrideWrapper
    (PyValue.int 10) PyValue.none "loglevel" (PyValue.int 99)
    (Or.inr (Or.inl rfl)) (by decide)
  rw [h]
  rfl

/-- C10: the constructed wrapper's logger is the kwargs' "logger" entry
when that entry is present and truthy, and otherwise (absent or falsy)
it is the multiprocessing module logger. -/
theorem C10_logger_from_kwargs (task_name task_id : String)
    (task_func : Func PyValue) (args : List PyValue) (kwargs : Dict PyValue)
    (on_ack : Option Unit) (retries : Nat) (opts : Dict String) :
    (∀ v : PyValue, dictGet kwargs "logger" = some v → v.truthy = true →
      (TaskWrapper.init task_name task_id task_func args kwargs on_ack retries
        opts).logger = v)
    ∧ (((dictGet kwargs "logger").getD PyValue.none).truthy = false →
      (TaskWrapper.init task_name task_id task_func args kwargs on_ack retries
        opts).logger = multiprocessing_get_logger) := by
  constructor
  · intro v hv ht
    simp [TaskWrapper.init, hv, ht]
  · intro hf
    simp [TaskWrapper.init, hf]

/-- C10 witness: a truthy "logger" kwarg becomes the wrapper's logger;
with no "logger" kwarg the wrapper falls back to the multiprocessing
logger. -/
theorem C10_witness :
    (TaskWrapper.init "add" "t1" addFunc []
        [("logger", PyValue.logger "custom")] (some ()) 0 []).logger =
      PyValue.logger "custom"
    ∧ (TaskWrapper.init "add" "t1" addFunc [] [] (some ()) 0 []).logger =
      multiprocessing_get_logger := by
  have h1 := C10_logger_from_kwargs "add" "t1" addFunc []
    [("logger", PyValue.logger "custom")] (some ()) 0 []
  have h2 := C10_logger_from_kwargs "add" "t1" addFunc [] [] (some ()) 0 []
  exact ⟨h1.1 (PyValue.logger "custom") (by decide) (by decide), h2.2 (by decide)⟩

end CeleryJob
